import Mathlib

/-!
Verification of the settings-to-arguments translation core of `ffmpegfront.go`
(a ffmpeg front-end CLI).  The Go source is shallowly embedded: pure argument
building becomes Lean functions; calls to `os.Exit(1)` become `Except.error`;
the Go panic in the loudnorm extraction slice becomes `Option.none`; the
external measurement subprocess is represented by passing its (successful)
parsed result as an explicit parameter.
-/

namespace Ffmpegfront

/-- A call to `os.Exit` with the given status code. -/
structure ExitCall where
  code : Nat
deriving DecidableEq

def exit1 : ExitCall := ⟨1⟩

/-- `Video` struct (src/ffmpegfront.go lines 335-345). -/
structure Video where
  SoftwareEncode : Bool
  JustCopy : Bool
  Resolution : String
  Mode : String
  Quality : Int
  Tune : String
  VideoBitrate : String
  VideoMaxRate : String
  VideoBufSize : String
deriving DecidableEq

/-- `Audio` struct (src/ffmpegfront.go lines 346-353). -/
structure Audio where
  JustCopy : Bool
  AudioCodec : String
  AudioChannels : String
  AudioFilter : String
  AudioBitrate : String
  Loudnorm2Pass : Bool
deriving DecidableEq

/-- `Subtitles` struct (src/ffmpegfront.go lines 354-358). -/
structure Subtitles where
  BurnInSubtitles : Bool
  SubtitleFile : String
  SubtitleStyle : String
deriving DecidableEq

/-- `Time` struct (src/ffmpegfront.go lines 359-362). -/
structure Time where
  TimeSkipIntro : Int
  TotalTime : Int
deriving DecidableEq

/-- `Ready` struct (src/ffmpegfront.go lines 363-367). -/
structure Ready where
  NoOverwrite : Bool
  Completed : Bool
  Notes : String
deriving DecidableEq

/-- `Settings` struct (src/ffmpegfront.go lines 328-334). -/
structure Settings where
  Video : Video
  Audio : Audio
  Subtitles : Subtitles
  Time : Time
  Ready : Ready
deriving DecidableEq

/-- `loudnormValues` struct (src/ffmpegfront.go lines 369-380). -/
structure loudnormValues where
  InputI : String
  InputTp : String
  InputLra : String
  InputThresh : String
  OutputI : String
  OutputTp : String
  OutputLra : String
  OutputThresh : String
  NormalizationType : String
  TargetOffset : String
deriving DecidableEq

/-- The zero value of each struct, as produced by Go for a variable that
`json.Unmarshal` never writes to. -/
def zeroVideo : Video := ⟨false, false, "", "", 0, "", "", "", ""⟩

def zeroAudio : Audio := ⟨false, "", "", "", "", false⟩

def zeroSubtitles : Subtitles := ⟨false, "", ""⟩

def zeroTime : Time := ⟨0, 0⟩

def zeroReady : Ready := ⟨false, false, ""⟩

def zeroSettings : Settings := ⟨zeroVideo, zeroAudio, zeroSubtitles, zeroTime, zeroReady⟩

def zeroLn : loudnormValues := ⟨"", "", "", "", "", "", "", "", "", ""⟩

/-- The fixed preset table of `resolutionMap` (src lines 26-31); Go map lookup
yields the empty string for an absent key. -/
def resolutions (res : String) : String :=
  if res = "480p" then "640:480"
  else if res = "720p" then "1280:720"
  else if res = "1080p" then "1920:1080"
  else if res = "4k" then "3840:2160"
  else ""

/-- `resolutionMap` (src lines 25-40): preset lookup; on a miss the program
logs a diagnostic and calls `os.Exit(1)`, modelled as `Except.error exit1`. -/
def resolutionMap (res : String) : Except ExitCall String :=
  if resolutions res ≠ "" then Except.ok (resolutions res) else Except.error exit1

/-- The regular expression check performed in `parseVideoSettings`
(src line 156): the pattern is the anchored one-colon form with ASCII digits
on either side, so a string matches exactly when it contains precisely one
colon and every other character is an ASCII digit. -/
def matchesResPattern (s : String) : Bool :=
  s.toList.count ':' == 1 && s.toList.all (fun c => c == ':' || c.isDigit)

/-- The combined resolution handling of `parseVideoSettings` (src lines
155-161): a pattern match is used unchanged, anything else goes through
`resolutionMap`. -/
def resolveResolution (res : String) : Except ExitCall String :=
  if matchesResPattern res then Except.ok res else resolutionMap res

/-- The two-pass filter template of `parseAudioSettings` (src line 216). -/
def loudnormFilterString (lnJson : loudnormValues) : String :=
  "loudnorm=I=-16:TP=-1.5:LRA=11:measured_I=" ++ lnJson.OutputI ++
    ":measured_LRA=" ++ lnJson.OutputLra ++ ":measured_TP=" ++ lnJson.OutputTp ++
    ":measured_thresh=" ++ lnJson.OutputThresh ++ ":offset=" ++ lnJson.TargetOffset ++
    ":linear=true"

/-- Go `strings.Split` with a one-character separator, written as structural
recursion over the character list so the kernel can evaluate it.
`strings.Split("", sep)` yields `[""]`, matching the base case. -/
def splitOnChar (sep : Char) : List Char → List (List Char)
  | [] => [[]]
  | c :: cs =>
    let rest := splitOnChar sep cs
    if c = sep then [] :: rest
    else
      match rest with
      | r :: rs => (c :: r) :: rs
      | [] => [[c]]

/-- `strings.Split(s, "\n")` as used in `getLoudnormJson` (src line 240). -/
def splitLines (s : String) : List String :=
  (splitOnChar (Char.ofNat 10) s.data).map String.mk

/-- The positional extraction step of `getLoudnormJson` (src lines 240-241):
`lines[len(lines)-13 : len(lines)-1]` joined with a single space.  The Go
slice expression panics (index out of range) when the split produced fewer
than 13 lines; that partiality is made explicit with `none`. -/
def loudnormJsonFragment (stderr : String) : Option String :=
  let lines := splitLines stderr
  if 13 ≤ lines.length then
    some (String.intercalate " " ((lines.drop (lines.length - 13)).take 12))
  else none

/-- The codec, channel and bitrate portion of `parseAudioSettings`
(src lines 190-211), stated separately for use in theorem statements. -/
def audioBaseArgs (a : Audio) : List String :=
  let codec := if a.AudioCodec ≠ "" then a.AudioCodec else "aac"
  let args := ["-c:a", codec]
  let args := if a.AudioChannels ≠ "" then args ++ ["-ac", a.AudioChannels] else args
  let bitrate := if a.AudioBitrate ≠ "" then a.AudioBitrate else "192k"
  args ++ ["-b:a", bitrate]

/-- `parseAudioSettings` (src lines 190-225).  The measurement subprocess
result that `getLoudnormJson` would return on success is passed in as `ln`;
it is consulted only on the `Loudnorm2Pass` branch, exactly as in the source.
When the filter condition holds but `Loudnorm2Pass` is false, the Go `filter`
variable keeps its zero value and the flag is emitted with an empty string. -/
def parseAudioSettings (a : Audio) (file : String) (ln : loudnormValues) : List String :=
  let codec := if a.AudioCodec ≠ "" then a.AudioCodec else "aac"
  let args := ["-c:a", codec]
  let args := if a.AudioChannels ≠ "" then args ++ ["-ac", a.AudioChannels] else args
  let bitrate := if a.AudioBitrate ≠ "" then a.AudioBitrate else "192k"
  let args := args ++ ["-b:a", bitrate]
  if a.AudioFilter = "loudnorm" ∨ a.Loudnorm2Pass = true then
    let filter := if a.Loudnorm2Pass = true then loudnormFilterString ln else ""
    args ++ ["-filter:a", filter]
  else
    args

/-- The codec/profile/quality portion of `parseVideoSettings`
(src lines 140-150): hardware path, or software path with the CBR branch
taken only when `mode == "cbr"` and `videoBitrate != ""`. -/
def videoCodecArgs (v : Video) : List String :=
  if !v.SoftwareEncode then ["-c:v", "h264_omx", "-profile:v", "high"]
  else
    ["-profile:v", "high10"] ++
      (if v.Mode = "cbr" ∧ v.VideoBitrate ≠ "" then ["-b:v", v.VideoBitrate]
       else ["-crf", toString v.Quality, "-maxrate", v.VideoMaxRate,
             "-bufsize", v.VideoBufSize, "-tune", v.Tune])

/-- The scale portion of the filter string (src lines 154-164): empty when no
resolution is set, otherwise "scale=" with the resolved resolution; a
resolution neither pattern-shaped nor in the preset table exits the process. -/
def scaleClause (v : Video) : Except ExitCall String :=
  if v.Resolution ≠ "" then (resolveResolution v.Resolution).map (fun r => "scale=" ++ r)
  else Except.ok ""

/-- The subtitle portion of the filter string (src lines 166-182): always
begins with a comma and a space, names the explicit subtitle file or else the
input media file, and appends a force_style clause when a style is set. -/
def subtitleClause (s : Subtitles) (f : String) : String :=
  ", subtitles='" ++ (if s.SubtitleFile = "" then f else s.SubtitleFile) ++
    (if s.SubtitleStyle ≠ "" then ":force_style=" ++ s.SubtitleStyle else "") ++ "'"

/-- `parseVideoSettings` (src lines 137-188). -/
def parseVideoSettings (v : Video) (s : Subtitles) (f : String) :
    Except ExitCall (List String) :=
  if v.Resolution ≠ "" ∨ s.BurnInSubtitles = true then
    match scaleClause v with
    | Except.error e => Except.error e
    | Except.ok sc =>
      let filter := if s.BurnInSubtitles then sc ++ subtitleClause s f else sc
      Except.ok (videoCodecArgs v ++ ["-vf", filter])
  else Except.ok (videoCodecArgs v)

/-- The three fallible stages of `parseSettingsJson` (src lines 254-272):
`os.Open` failure, `ioutil.ReadAll` failure, or the parse result of the bytes
read (`none` when `json.Unmarshal` rejects them). -/
inductive SettingsRead where
  | openErr : SettingsRead
  | readErr : SettingsRead
  | content : Option Settings → SettingsRead

/-- `parseSettingsJson` (src lines 254-272): open and read failures call
`os.Exit(1)`; a `json.Unmarshal` failure is only logged and the zero-valued
`settings` named return is handed back, so execution continues. -/
def parseSettingsJson : SettingsRead → Except ExitCall Settings
  | SettingsRead.openErr => Except.error exit1
  | SettingsRead.readErr => Except.error exit1
  | SettingsRead.content none => Except.ok zeroSettings
  | SettingsRead.content (some s) => Except.ok s

/-- The argument assembly of `main` (src lines 68-100): input file, overwrite
flag, time-skip, duration limit, audio arguments, video arguments, output
file, in that order.  `ln` stands for the successful result of the optional
measurement pass, consulted only on the two-pass audio branch. -/
def buildArgs (settings : Settings) (inFile outFile : String) (ln : loudnormValues) :
    Except ExitCall (List String) :=
  let args := ["-i", inFile]
  let args := if settings.Ready.NoOverwrite then args else args ++ ["-y"]
  let args := if settings.Time.TimeSkipIntro ≠ 0 then
      args ++ ["-ss", toString settings.Time.TimeSkipIntro] else args
  let args := if settings.Time.TotalTime ≠ 0 then
      args ++ ["-t", toString settings.Time.TotalTime] else args
  let args := if settings.Audio.JustCopy then args ++ ["-c:a", "copy"]
    else args ++ parseAudioSettings settings.Audio inFile ln
  match (if settings.Video.JustCopy then Except.ok (args ++ ["-c:v", "copy"])
         else (parseVideoSettings settings.Video settings.Subtitles inFile).map
           (fun vArgs => args ++ vArgs) : Except ExitCall (List String)) with
  | Except.error e => Except.error e
  | Except.ok args => Except.ok (args ++ [outFile])

/-- JSON values, for modelling the field naming of encoding/json. -/
inductive Jval where
  | str : String → Jval
  | boolean : Bool → Jval
  | int : Int → Jval
  | obj : List (String × Jval) → Jval

/-- ASCII case folding on a character code point, as strings.EqualFold does
for the ASCII keys occurring here. -/
def lowerNat (c : Char) : Nat :=
  if 65 ≤ c.toNat ∧ c.toNat ≤ 90 then c.toNat + 32 else c.toNat

/-- Case-insensitive string equality (ASCII fold). -/
def foldEq (a b : String) : Bool :=
  a.data.map lowerNat == b.data.map lowerNat

/-- encoding/json key matching for a tagged struct field: an incoming object
key is matched against the struct tag, preferring an exact match but also
accepting a case-insensitive match. -/
def lookupKey (o : List (String × Jval)) (tag : String) : Option Jval :=
  match o.find? (fun kv => kv.1 == tag) with
  | some kv => some kv.2
  | none => (o.find? (fun kv => foldEq kv.1 tag)).map Prod.snd

/-- Read a string field; an absent key leaves the Go zero value "". -/
def getStr (o : List (String × Jval)) (tag : String) : String :=
  match lookupKey o tag with
  | some (Jval.str s) => s
  | _ => ""

def getBool (o : List (String × Jval)) (tag : String) : Bool :=
  match lookupKey o tag with
  | some (Jval.boolean b) => b
  | _ => false

def getInt (o : List (String × Jval)) (tag : String) : Int :=
  match lookupKey o tag with
  | some (Jval.int n) => n
  | _ => 0

def getObj (o : List (String × Jval)) (tag : String) : List (String × Jval) :=
  match lookupKey o tag with
  | some (Jval.obj l) => l
  | _ => []

/-- json.Marshal of `Video`, with the struct tags of src lines 335-345.
Note the tag of `VideoBufSize` is "videoBufsize" (lower-case s). -/
def marshalVideo (v : Video) : List (String × Jval) :=
  [("softwareEncode", Jval.boolean v.SoftwareEncode), ("justCopy", Jval.boolean v.JustCopy),
   ("resolution", Jval.str v.Resolution), ("mode", Jval.str v.Mode),
   ("quality", Jval.int v.Quality), ("tune", Jval.str v.Tune),
   ("videoBitrate", Jval.str v.VideoBitrate), ("videoMaxRate", Jval.str v.VideoMaxRate),
   ("videoBufsize", Jval.str v.VideoBufSize)]

/-- json.Marshal of `Audio`, with the struct tags of src lines 346-353.
Note the tag of `AudioBitrate` is the misspelled "auidioBitrate". -/
def marshalAudio (a : Audio) : List (String × Jval) :=
  [("justCopy", Jval.boolean a.JustCopy), ("audioCodec", Jval.str a.AudioCodec),
   ("audioChannels", Jval.str a.AudioChannels), ("audioFilter", Jval.str a.AudioFilter),
   ("auidioBitrate", Jval.str a.AudioBitrate), ("loudnorm2Pass", Jval.boolean a.Loudnorm2Pass)]

/-- json.Marshal of `Subtitles` (src lines 354-358). -/
def marshalSubtitles (s : Subtitles) : List (String × Jval) :=
  [("burnInSubtitles", Jval.boolean s.BurnInSubtitles), ("subtitleFile", Jval.str s.SubtitleFile),
   ("subtitleStyle", Jval.str s.SubtitleStyle)]

/-- json.Marshal of `Time` (src lines 359-362). -/
def marshalTime (t : Time) : List (String × Jval) :=
  [("timeSkipIntro", Jval.int t.TimeSkipIntro), ("totalTime", Jval.int t.TotalTime)]

/-- json.Marshal of `Ready` (src lines 363-367). -/
def marshalReady (r : Ready) : List (String × Jval) :=
  [("noOverwrite", Jval.boolean r.NoOverwrite), ("completed", Jval.boolean r.Completed),
   ("notes", Jval.str r.Notes)]

/-- json.Marshal of `Settings` (src lines 328-334). -/
def marshalSettings (s : Settings) : List (String × Jval) :=
  [("video", Jval.obj (marshalVideo s.Video)), ("audio", Jval.obj (marshalAudio s.Audio)),
   ("subtitles", Jval.obj (marshalSubtitles s.Subtitles)),
   ("time", Jval.obj (marshalTime s.Time)), ("ready", Jval.obj (marshalReady s.Ready))]

/-- json.Unmarshal into `Video` by struct tag. -/
def unmarshalVideo (o : List (String × Jval)) : Video :=
  ⟨getBool o "softwareEncode", getBool o "justCopy", getStr o "resolution",
   getStr o "mode", getInt o "quality", getStr o "tune", getStr o "videoBitrate",
   getStr o "videoMaxRate", getStr o "videoBufsize"⟩

/-- json.Unmarshal into `Audio` by struct tag: the bitrate is read from the
misspelled tag "auidioBitrate". -/
def unmarshalAudio (o : List (String × Jval)) : Audio :=
  ⟨getBool o "justCopy", getStr o "audioCodec", getStr o "audioChannels",
   getStr o "audioFilter", getStr o "auidioBitrate", getBool o "loudnorm2Pass"⟩

def unmarshalSubtitles (o : List (String × Jval)) : Subtitles :=
  ⟨getBool o "burnInSubtitles", getStr o "subtitleFile", getStr o "subtitleStyle"⟩

def unmarshalTime (o : List (String × Jval)) : Time :=
  ⟨getInt o "timeSkipIntro", getInt o "totalTime"⟩

def unmarshalReady (o : List (String × Jval)) : Ready :=
  ⟨getBool o "noOverwrite", getBool o "completed", getStr o "notes"⟩

def unmarshalSettings (o : List (String × Jval)) : Settings :=
  ⟨unmarshalVideo (getObj o "video"), unmarshalAudio (getObj o "audio"),
   unmarshalSubtitles (getObj o "subtitles"), unmarshalTime (getObj o "time"),
   unmarshalReady (getObj o "ready")⟩

/-- A measurement stderr text with 14 lines, used as a concrete witness
input for the extraction theorems. -/
def sampleStderr : String :=
  "l0\nl1\nl2\nl3\nl4\nl5\nl6\nl7\nl8\nl9\nl10\nl11\nl12\nlast"

/-- A concrete two-pass loudnorm audio configuration. -/
def loudAudio : Audio := ⟨false, "", "", "loudnorm", "", true⟩

/-- The settings of the end-to-end scenario: both streams stream-copied,
ten-second skip, thirty-second duration limit. -/
def c2Settings : Settings :=
  ⟨⟨false, true, "", "", 0, "", "", "", ""⟩,
   ⟨true, "", "", "", "", false⟩,
   zeroSubtitles, ⟨10, 30⟩, zeroReady⟩

/-- C1: the claim says a malformed settings document (json.Unmarshal failure)
terminates the process with a non-zero status before any encoder subprocess
runs.  The code does not: `parseSettingsJson` only logs the unmarshal error
and returns the zero-valued `Settings`, after which `main` builds a full
argument vector and launches the encoder.  This theorem evaluates the code at
the failing input: the parse stage yields `Except.ok zeroSettings` rather
than an exit, and the argument assembly then reaches the encoder invocation
with default arguments. -/
theorem settings_parse_error_not_fatal :
    parseSettingsJson (SettingsRead.content none) = Except.ok zeroSettings ∧
    buildArgs zeroSettings "in.mp4" "out.mp4" zeroLn =
      Except.ok ["-i", "in.mp4", "-y", "-c:a", "aac", "-b:a", "192k",
                 "-c:v", "h264_omx", "-profile:v", "high", "out.mp4"] :=
  ⟨rfl, by rfl⟩

/-- C2: for the settings with both streams on justCopy, timeSkipIntro 10 and
totalTime 30, input in.mp4 and output out.mp4, the orchestrator builds
exactly the documented argument vector in the fixed section order. -/
theorem justCopy_end_to_end_args :
    buildArgs c2Settings "in.mp4" "out.mp4" zeroLn =
      Except.ok ["-i", "in.mp4", "-y", "-ss", "10", "-t", "30",
                 "-c:a", "copy", "-c:v", "copy", "out.mp4"] := by rfl

/-- C3: each of the four preset names resolves to its documented dimension
string; a string matching the digit-colon-digit pattern is used unchanged;
any other non-empty string terminates the process with status 1. -/
theorem resolve_resolution_spec (res : String) :
    resolveResolution "480p" = Except.ok "640:480" ∧
    resolveResolution "720p" = Except.ok "1280:720" ∧
    resolveResolution "1080p" = Except.ok "1920:1080" ∧
    resolveResolution "4k" = Except.ok "3840:2160" ∧
    (matchesResPattern res = true → resolveResolution res = Except.ok res) ∧
    (res ≠ "" → matchesResPattern res = false → res ≠ "480p" → res ≠ "720p" →
      res ≠ "1080p" → res ≠ "4k" → resolveResolution res = Except.error exit1) := by
  refine ⟨by rfl, by rfl, by rfl, by rfl, ?_, ?_⟩
  · intro h; simp [resolveResolution, h]
  · intro _ hpat h1 h2 h3 h4
    simp [resolveResolution, hpat, resolutionMap, resolutions, h1, h2, h3, h4]

theorem resolve_resolution_spec_witness :
    resolveResolution "wat" = Except.error exit1 :=
  (resolve_resolution_spec "wat").2.2.2.2.2 (by decide) (by decide) (by decide)
    (by decide) (by decide) (by decide)

/-- C4: with audio justCopy false, the builder appends a filter flag exactly
when audioFilter is "loudnorm" or loudnorm2Pass is set; with neither, the
argument list is just the codec, channel and bitrate arguments, and with
audioFilter "loudnorm" but loudnorm2Pass false the flag is emitted with an
empty string as its value. -/
theorem audio_filter_flag_emission (a : Audio) (file : String) (ln : loudnormValues)
    (hjc : a.JustCopy = false) :
    (a.AudioFilter = "loudnorm" ∨ a.Loudnorm2Pass = true →
      parseAudioSettings a file ln =
        audioBaseArgs a ++ ["-filter:a",
          if a.Loudnorm2Pass = true then loudnormFilterString ln else ""]) ∧
    (a.AudioFilter ≠ "loudnorm" → a.Loudnorm2Pass = false →
      parseAudioSettings a file ln = audioBaseArgs a) ∧
    (a.AudioFilter = "loudnorm" → a.Loudnorm2Pass = false →
      parseAudioSettings a file ln = audioBaseArgs a ++ ["-filter:a", ""]) := by
  refine ⟨?_, ?_, ?_⟩
  · rintro (h | h) <;> simp [parseAudioSettings, audioBaseArgs, h]
  · intro h1 h2; simp [parseAudioSettings, audioBaseArgs, h1, h2]
  · intro h1 h2; simp [parseAudioSettings, audioBaseArgs, h1, h2]

theorem audio_filter_flag_emission_witness :
    parseAudioSettings ⟨false, "", "", "loudnorm", "", false⟩ "f" zeroLn =
      audioBaseArgs ⟨false, "", "", "loudnorm", "", false⟩ ++ ["-filter:a", ""] :=
  (audio_filter_flag_emission ⟨false, "", "", "loudnorm", "", false⟩ "f" zeroLn rfl).2.2
    rfl rfl

/-- C5: whenever the measurement diagnostic text splits into at least 13
lines, the extracted JSON fragment is exactly the 12 lines immediately
preceding the final line; and on the two-pass branch the audio builder emits
the fixed normalization template with the measured values interpolated into
the measured_I, measured_LRA, measured_TP, measured_thresh and offset
slots. -/
theorem loudnorm_two_pass_extraction_and_filter (stderr : String) (a : Audio)
    (file : String) (ln : loudnormValues)
    (h13 : 13 ≤ (splitLines stderr).length) (h2 : a.Loudnorm2Pass = true) :
    (∃ pre extracted lastLine,
      splitLines stderr = pre ++ extracted ++ [lastLine] ∧
      extracted.length = 12 ∧
      loudnormJsonFragment stderr = some (String.intercalate " " extracted)) ∧
    parseAudioSettings a file ln = audioBaseArgs a ++ ["-filter:a",
      "loudnorm=I=-16:TP=-1.5:LRA=11:measured_I=" ++ ln.OutputI ++
        ":measured_LRA=" ++ ln.OutputLra ++ ":measured_TP=" ++ ln.OutputTp ++
        ":measured_thresh=" ++ ln.OutputThresh ++ ":offset=" ++ ln.TargetOffset ++
        ":linear=true"] := by
  constructor
  · obtain ⟨lastLine, hlast⟩ :
        ∃ x, ((splitLines stderr).drop ((splitLines stderr).length - 13)).drop 12 = [x] := by
      apply List.length_eq_one.mp
      rw [List.length_drop, List.length_drop]
      omega
    refine ⟨(splitLines stderr).take ((splitLines stderr).length - 13),
      ((splitLines stderr).drop ((splitLines stderr).length - 13)).take 12, lastLine,
      ?_, ?_, ?_⟩
    · rw [← hlast, List.append_assoc, List.take_append_drop, List.take_append_drop]
    · rw [List.length_take, List.length_drop]; omega
    · simp only [loudnormJsonFragment]
      rw [if_pos h13]
  · simp [parseAudioSettings, audioBaseArgs, h2, loudnormFilterString]

theorem loudnorm_two_pass_extraction_and_filter_witness :
    (∃ pre extracted lastLine,
      splitLines sampleStderr = pre ++ extracted ++ [lastLine] ∧
      extracted.length = 12 ∧
      loudnormJsonFragment sampleStderr = some (String.intercalate " " extracted)) ∧
    parseAudioSettings loudAudio "in.mp4" zeroLn = audioBaseArgs loudAudio ++ ["-filter:a",
      "loudnorm=I=-16:TP=-1.5:LRA=11:measured_I=" ++ zeroLn.OutputI ++
        ":measured_LRA=" ++ zeroLn.OutputLra ++ ":measured_TP=" ++ zeroLn.OutputTp ++
        ":measured_thresh=" ++ zeroLn.OutputThresh ++ ":offset=" ++ zeroLn.TargetOffset ++
        ":linear=true"] :=
  loudnorm_two_pass_extraction_and_filter sampleStderr loudAudio "in.mp4" zeroLn
    (by decide) rfl

/-- C6: with a non-empty resolution that resolves, subtitle burn-in and video
justCopy false, the video argument list is the codec arguments followed by a
single filter flag whose single value joins the scale clause and then the
subtitle clause; the subtitle clause names the explicit subtitle file, or the
input media file when that is empty. -/
theorem video_single_vf_filter (v : Video) (s : Subtitles) (f res : String)
    (hjc : v.JustCopy = false) (hres : v.Resolution ≠ "")
    (hb : s.BurnInSubtitles = true)
    (hok : resolveResolution v.Resolution = Except.ok res) :
    parseVideoSettings v s f =
      Except.ok (videoCodecArgs v ++ ["-vf", ("scale=" ++ res) ++ subtitleClause s f]) ∧
    subtitleClause s f =
      ", subtitles='" ++ (if s.SubtitleFile = "" then f else s.SubtitleFile) ++
        (if s.SubtitleStyle ≠ "" then ":force_style=" ++ s.SubtitleStyle else "") ++ "'" ∧
    (s.SubtitleFile = "" →
      subtitleClause s f = ", subtitles='" ++ f ++
        (if s.SubtitleStyle ≠ "" then ":force_style=" ++ s.SubtitleStyle else "") ++ "'") := by
  refine ⟨?_, rfl, ?_⟩
  · simp [parseVideoSettings, scaleClause, Except.map, hres, hb, hok]
  · intro h; simp [subtitleClause, h]

theorem video_single_vf_filter_witness :
    parseVideoSettings ⟨false, false, "720p", "", 0, "", "", "", ""⟩ ⟨true, "", ""⟩ "in.mp4" =
      Except.ok (videoCodecArgs ⟨false, false, "720p", "", 0, "", "", "", ""⟩ ++
        ["-vf", ("scale=" ++ "1280:720") ++ subtitleClause ⟨true, "", ""⟩ "in.mp4"]) :=
  (video_single_vf_filter ⟨false, false, "720p", "", 0, "", "", "", ""⟩ ⟨true, "", ""⟩
    "in.mp4" "1280:720" rfl (by decide) rfl (by rfl)).1

/-- C7: on the software-encode path the constant-bitrate branch is taken
exactly when mode is "cbr" and videoBitrate is non-empty; in every other
case, including mode "cbr" with an empty videoBitrate, the builder falls back
to the constant-rate-factor branch. -/
theorem cbr_requires_bitrate (v : Video) (hsw : v.SoftwareEncode = true)
    (hjc : v.JustCopy = false) :
    (v.Mode = "cbr" ∧ v.VideoBitrate ≠ "" →
      videoCodecArgs v = ["-profile:v", "high10", "-b:v", v.VideoBitrate]) ∧
    (¬(v.Mode = "cbr" ∧ v.VideoBitrate ≠ "") →
      videoCodecArgs v = ["-profile:v", "high10", "-crf", toString v.Quality,
        "-maxrate", v.VideoMaxRate, "-bufsize", v.VideoBufSize, "-tune", v.Tune]) := by
  constructor
  · intro h; simp [videoCodecArgs, hsw, h]
  · intro h; simp [videoCodecArgs, hsw, h]

theorem cbr_requires_bitrate_witness :
    videoCodecArgs ⟨true, false, "", "cbr", 23, "film", "", "4M", "6M"⟩ =
      ["-profile:v", "high10", "-crf", toString (23 : Int), "-maxrate", "4M",
       "-bufsize", "6M", "-tune", "film"] :=
  (cbr_requires_bitrate ⟨true, false, "", "cbr", 23, "film", "", "4M", "6M"⟩ rfl rfl).2
    (by decide)

/-- C8 counterexample: the claim says the audio bitrate is read from and
written under the key "audioBitrate"; in the code the struct tag is the
misspelled "auidioBitrate", so a document key "audioBitrate" does not
populate the field (also not case-insensitively) and the template does not
contain that key. -/
theorem audio_bitrate_key_counterexample :
    (unmarshalAudio [("audioBitrate", Jval.str "320k")]).AudioBitrate ≠ "320k" ∧
    "audioBitrate" ∉ (marshalAudio zeroAudio).map Prod.fst := by
  constructor
  · decide
  · decide

/-- C8 amended: settings documents and template documents use the JSON field
names of the data model except that the audio bitrate is read and written
under the misspelled key "auidioBitrate" and the video buffer size is written
under "videoBufsize"; a written document read back yields the identical
settings value. -/
theorem settings_json_key_names (a : Audio) (v : Video) (o : List (String × Jval))
    (s : Settings) :
    (marshalAudio a).map Prod.fst =
      ["justCopy", "audioCodec", "audioChannels", "audioFilter", "auidioBitrate",
       "loudnorm2Pass"] ∧
    (marshalVideo v).map Prod.fst =
      ["softwareEncode", "justCopy", "resolution", "mode", "quality", "tune",
       "videoBitrate", "videoMaxRate", "videoBufsize"] ∧
    (unmarshalAudio o).AudioBitrate = getStr o "auidioBitrate" ∧
    (unmarshalAudio [("audioBitrate", Jval.str "320k")]).AudioBitrate = "" ∧
    unmarshalSettings (marshalSettings s) = s := by
  refine ⟨rfl, rfl, rfl, by rfl, ?_⟩
  rfl

/-- C9: the positional extraction is total exactly when the diagnostic text
splits into at least 13 lines; with fewer lines the Go slice expression is
out of range and the extraction fails instead of producing a fragment. -/
theorem loudnorm_extraction_totality (stderr : String) :
    ((splitLines stderr).length < 13 → loudnormJsonFragment stderr = none) ∧
    (13 ≤ (splitLines stderr).length → (loudnormJsonFragment stderr).isSome = true) := by
  constructor
  · intro h
    simp only [loudnormJsonFragment]
    rw [if_neg (by omega)]
  · intro h
    simp only [loudnormJsonFragment]
    rw [if_pos h]
    rfl

theorem loudnorm_extraction_totality_witness :
    loudnormJsonFragment "size=N-A time=00:01" = none :=
  (loudnorm_extraction_totality "size=N-A time=00:01").1 (by decide)

/-- C10: with an empty resolution, subtitle burn-in and video justCopy false,
a filter flag is still emitted and its value is exactly the subtitle clause,
which begins with a comma and a space before "subtitles='" since no scale
clause precedes it; the subtitle clause carries that comma-space lead-in
unconditionally. -/
theorem subtitle_clause_leading_comma (v : Video) (s : Subtitles) (f : String)
    (hjc : v.JustCopy = false) (hres : v.Resolution = "")
    (hb : s.BurnInSubtitles = true) :
    parseVideoSettings v s f =
      Except.ok (videoCodecArgs v ++ ["-vf", subtitleClause s f]) ∧
    (∃ rest, subtitleClause s f = ", subtitles='" ++ rest) := by
  constructor
  · have hempty : ∀ t : String, "" ++ t = t := fun t => rfl
    simp [parseVideoSettings, scaleClause, hres, hb, hempty]
  · refine ⟨(if s.SubtitleFile = "" then f else s.SubtitleFile) ++
      ((if s.SubtitleStyle ≠ "" then ":force_style=" ++ s.SubtitleStyle else "") ++ "'"), ?_⟩
    simp [subtitleClause, String.append_assoc]

theorem subtitle_clause_leading_comma_witness :
    parseVideoSettings ⟨false, false, "", "", 0, "", "", "", ""⟩ ⟨true, "subs.srt", ""⟩
        "in.mp4" =
      Except.ok (videoCodecArgs ⟨false, false, "", "", 0, "", "", "", ""⟩ ++
        ["-vf", subtitleClause ⟨true, "subs.srt", ""⟩ "in.mp4"]) :=
  (subtitle_clause_leading_comma ⟨false, false, "", "", 0, "", "", "", ""⟩
    ⟨true, "subs.srt", ""⟩ "in.mp4" rfl rfl rfl).1

end Ffmpegfront
